import Mathlib

/-!
Verification of the `devtools-dashboard` backend (`src/backend/app.py`),
a Flask proxy with six endpoint handlers.  Each handler is embedded as a
pure Lean function from its inputs (query arguments, environment, and the
upstream HTTP result) to its outcome (an HTTP response, or an exception
escaping the handler).  JSON values are a Lean inductive; Python machine
floats are modelled as exact rationals; fallible Python operations
(`data[k]`, `data.get(k)`, `float(s)`, `x * y`) return `Except String`,
the error string standing for the raised exception's message.
-/

/-- JSON values, as produced by `response.json()`. -/
inductive Json where
  | null
  | bool (b : Bool)
  | num (q : ℚ)
  | str (s : String)
  | arr (elems : List Json)
  | obj (fields : List (String × Json))

/-- First-match lookup in an association list keyed by strings, modelling
Python dict lookup (insertion order with distinct keys in practice). -/
def lookupKey {α : Type} : List (String × α) → String → Option α
  | [], _ => none
  | (k, v) :: rest, key => if k = key then some v else lookupKey rest key

/-- `str(KeyError(k))` is the repr of the key: the key in single quotes. -/
def keyErrMsg (k : String) : String := "\x27" ++ k ++ "\x27"

/-- Python subscript `data[k]` with a string key: succeeds only on a dict
containing the key; raises `KeyError` on a dict missing it, `TypeError`
otherwise. -/
def Json.index : Json → String → Except String Json
  | .obj fields, k =>
      match lookupKey fields k with
      | some v => Except.ok v
      | none => Except.error (keyErrMsg k)
  | .arr _, k => Except.error ("list indices must be integers or slices, not str: " ++ k)
  | _, _ => Except.error "object is not subscriptable"

/-- Python subscript `data[i]` with an integer index on a list; raises
`IndexError` out of range, `TypeError` on non-sequences. -/
def Json.indexNat : Json → Nat → Except String Json
  | .arr elems, i =>
      match elems.get? i with
      | some v => Except.ok v
      | none => Except.error "list index out of range"
  | _, _ => Except.error "object is not subscriptable"

/-- Python `data.get(k)`: `None` for an absent key on a dict; raises
`AttributeError` when the receiver is not a dict. -/
def Json.dictGet : Json → String → Except String Json
  | .obj fields, k => Except.ok ((lookupKey fields k).getD Json.null)
  | _, _ => Except.error "object has no attribute get"

/-- Python truthiness of a JSON value (`if rate:`). -/
def Json.truthy : Json → Bool
  | .null => false
  | .bool b => b
  | .num q => if q = 0 then false else true
  | .str s => if s = "" then false else true
  | .arr [] => false
  | .arr (_ :: _) => true
  | .obj [] => false
  | .obj (_ :: _) => true

/-- Sequencing of fallible Python steps: the first raised exception
propagates. -/
def tryStep {α β : Type} : Except String α → (α → Except String β) → Except String β
  | Except.ok a, f => f a
  | Except.error e, _ => Except.error e

/-- Numeric value of a list of decimal digit characters. -/
def digitsVal (cs : List Char) : Nat :=
  cs.foldl (fun a c => a * 10 + (c.toNat - 48)) 0

/-- Core of Python `float(s)` on plain decimal literals: optional sign,
then digits with an optional fractional part (at least one digit overall).
Exponents, infinities and surrounding whitespace are outside the inputs
this program's claims exercise. -/
def pyFloatCore (cs : List Char) : Option ℚ :=
  let signed : ℚ × List Char :=
    match cs with
    | '-' :: t => (-1, t)
    | '+' :: t => (1, t)
    | _ => (1, cs)
  let intPart := signed.2.takeWhile Char.isDigit
  let rest := signed.2.dropWhile Char.isDigit
  match rest with
  | [] => if intPart = [] then none else some (signed.1 * digitsVal intPart)
  | '.' :: frac =>
      if frac.all Char.isDigit ∧ ¬(intPart = [] ∧ frac = []) then
        some (signed.1 * ((digitsVal intPart : ℚ) + (digitsVal frac : ℚ) / (10 : ℚ) ^ frac.length))
      else none
  | _ => none

/-- Python `float(s)`: the parsed value, or a `ValueError` message. -/
def pyFloat (s : String) : Except String ℚ :=
  match pyFloatCore s.data with
  | some q => Except.ok q
  | none => Except.error ("could not convert string to float: \x27" ++ s ++ "\x27")

/-- Python `amount * rate` where `amount` is a float and `rate` came from
JSON: numbers and booleans multiply, anything else raises `TypeError`. -/
def pyMulFloat (a : ℚ) : Json → Except String ℚ
  | Json.num q => Except.ok (a * q)
  | Json.bool b => Except.ok (a * (if b then 1 else 0))
  | _ => Except.error "unsupported operand type for multiplication"

/-- Round half to even to an integer, as Python `round` does. -/
def roundHalfToEven (q : ℚ) : ℤ :=
  let f : ℤ := ⌊q⌋
  if q - f < 1 / 2 then f
  else if q - f > 1 / 2 then f + 1
  else if f % 2 = 0 then f else f + 1

/-- Python `round(x, 2)` on the exact rational model. -/
def pyRound2 (q : ℚ) : ℚ := (roundHalfToEven (q * 100) : ℚ) / 100

/-- A Flask response: status code, content type and JSON body. -/
structure Resp where
  status : Nat
  mimetype : String
  body : Json

/-- `jsonify(obj)` with an explicit status code (200 when the handler
returns the bare `jsonify(...)`). -/
def jsonify (body : Json) (status : Nat) : Resp :=
  { status := status, mimetype := "application/json", body := body }

/-- The error bodies the handlers build. -/
def errBody (msg : String) : Json := Json.obj [("error", Json.str msg)]

/-- What a handler invocation produces: a response, or an exception that
escapes the handler (Flask then renders its own 500 page, not the
handler's JSON). -/
inductive Outcome where
  | resp (r : Resp)
  | escaped (msg : String)

/-- The result of the single outbound `requests.get` + `response.json()`
pair: either one of the two raised (transport fault or JSON parse fault),
or a status code with a parsed JSON body. -/
inductive Upstream where
  | raises (msg : String)
  | ok (status : Nat) (body : Json)

/-- `try: ... except Exception as e: return jsonify(error=str(e)), 500` —
the blanket handler wrapping each endpoint's body. -/
def catch500 : Except String Resp → Resp
  | Except.ok r => r
  | Except.error msg => jsonify (errBody msg) 500

/-- Query arguments of the inbound request. -/
abbrev Args : Type := List (String × String)

/-- `request.args.get(k, default)`. -/
def argsGetD (args : Args) (k d : String) : String :=
  (lookupKey args k).getD d

/-- `health` handler: `GET /api/health`. -/
def health : Resp :=
  jsonify (Json.obj [("status", Json.str "healthy"),
                     ("message", Json.str "Dashboard API is running")]) 200

/-- `health_root` handler: `GET /health`. -/
def health_root : Resp :=
  jsonify (Json.obj [("status", Json.str "healthy"),
                     ("message", Json.str "Dashboard API is running")]) 200

/-- Field extraction of the weather success path, in source order:
`data['name']`, `data['main']['temp']`, `data['weather'][0]['description']`,
`data['main']['humidity']`, `data['wind']['speed']`. -/
def weatherBody (data : Json) : Except String Json :=
  tryStep (data.index "name") (fun name =>
  tryStep (data.index "main") (fun main =>
  tryStep (main.index "temp") (fun temp =>
  tryStep (data.index "weather") (fun weather =>
  tryStep (weather.indexNat 0) (fun w0 =>
  tryStep (w0.index "description") (fun desc =>
  tryStep (main.index "humidity") (fun humidity =>
  tryStep (data.index "wind") (fun wind =>
  tryStep (wind.index "speed") (fun speed =>
  Except.ok (Json.obj [("city", name), ("temperature", temp),
                       ("description", desc), ("humidity", humidity),
                       ("wind_speed", speed)]))))))))))

/-- `get_weather` handler.  `key` is the value of the
`OPENWEATHER_API_KEY` environment variable (`none` when unset); the
`city` argument only shapes the upstream URL, which the `upstream`
oracle already accounts for. -/
def get_weather (args : Args) (key : Option String) (upstream : Upstream) : Outcome :=
  let _city := argsGetD args "city" "London"
  let api_key := key.getD ""
  if api_key = "" then Outcome.resp (jsonify (errBody "API key not configured") 500)
  else
    Outcome.resp (catch500 (
      match upstream with
      | Upstream.raises msg => Except.error msg
      | Upstream.ok status data =>
          if status = 200 then
            tryStep (weatherBody data) (fun body => Except.ok (jsonify body 200))
          else Except.ok (jsonify (errBody "City not found") 404)))

/-- Success path of the currency conversion, from `rate = data['rates'].get(to_currency)`
through the `if rate:` truthiness test. -/
def currencyTry (from_currency to_currency : String) (amount : ℚ)
    (upstream : Upstream) : Except String Resp :=
  match upstream with
  | Upstream.raises msg => Except.error msg
  | Upstream.ok status data =>
      if status = 200 then
        tryStep (data.index "rates") (fun rates =>
        tryStep (rates.dictGet to_currency) (fun rate =>
        if rate.truthy then
          tryStep (pyMulFloat amount rate) (fun converted =>
          Except.ok (jsonify (Json.obj
            [("from", Json.str from_currency), ("to", Json.str to_currency),
             ("amount", Json.num amount),
             ("converted", Json.num (pyRound2 converted)),
             ("rate", rate)]) 200))
        else Except.ok (jsonify (errBody "Invalid currency code") 400)))
      else Except.ok (jsonify (errBody "Unable to fetch exchange rates") 500)

/-- `convert_currency` handler.  Note that
`amount = float(request.args.get('amount', 1))` runs BEFORE the `try:`
block, so a `ValueError` raised there escapes the handler. -/
def convert_currency (args : Args) (upstream : Upstream) : Outcome :=
  let from_currency := argsGetD args "from" "USD"
  let to_currency := argsGetD args "to" "EUR"
  match pyFloat (argsGetD args "amount" "1") with
  | Except.error msg => Outcome.escaped msg
  | Except.ok amount =>
      Outcome.resp (catch500 (currencyTry from_currency to_currency amount upstream))

/-- Field extraction of the GitHub success path, in source order. -/
def githubBody (data : Json) : Except String Json :=
  tryStep (data.index "login") (fun login =>
  tryStep (data.index "name") (fun name =>
  tryStep (data.index "bio") (fun bio =>
  tryStep (data.index "public_repos") (fun public_repos =>
  tryStep (data.index "followers") (fun followers =>
  tryStep (data.index "following") (fun following =>
  tryStep (data.index "avatar_url") (fun avatar_url =>
  tryStep (data.index "html_url") (fun html_url =>
  Except.ok (Json.obj [("username", login), ("name", name), ("bio", bio),
                       ("public_repos", public_repos), ("followers", followers),
                       ("following", following), ("avatar_url", avatar_url),
                       ("profile_url", html_url)])))))))))

/-- `get_github_stats` handler; the username only shapes the upstream URL. -/
def get_github_stats (_username : String) (upstream : Upstream) : Outcome :=
  Outcome.resp (catch500 (
    match upstream with
    | Upstream.raises msg => Except.error msg
    | Upstream.ok status data =>
        if status = 200 then
          tryStep (githubBody data) (fun body => Except.ok (jsonify body 200))
        else Except.ok (jsonify (errBody "User not found") 404)))

/-- Field extraction of the ip-lookup success path: all six fields use the
defensive `data.get(...)`, `country` reading upstream key `country_name`. -/
def ipBody (data : Json) : Except String Json :=
  tryStep (data.dictGet "ip") (fun ip =>
  tryStep (data.dictGet "city") (fun city =>
  tryStep (data.dictGet "region") (fun region =>
  tryStep (data.dictGet "country_name") (fun country =>
  tryStep (data.dictGet "timezone") (fun timezone =>
  tryStep (data.dictGet "org") (fun org =>
  Except.ok (Json.obj [("ip", ip), ("city", city), ("region", region),
                       ("country", country), ("timezone", timezone),
                       ("org", org)])))))))

/-- `ip_lookup` handler; the `ip` argument only selects the upstream URL. -/
def ip_lookup (args : Args) (upstream : Upstream) : Outcome :=
  let _ip := argsGetD args "ip" ""
  Outcome.resp (catch500 (
    match upstream with
    | Upstream.raises msg => Except.error msg
    | Upstream.ok status data =>
        if status = 200 then
          tryStep (ipBody data) (fun body => Except.ok (jsonify body 200))
        else Except.ok (jsonify (errBody "Unable to lookup IP") 500)))

/-- `article` to output mapping of the news loop body, in source order. -/
def mapArticle (a : Json) : Except String Json :=
  tryStep (a.index "title") (fun title =>
  tryStep (a.index "description") (fun description =>
  tryStep (a.index "url") (fun url =>
  tryStep (a.index "published_at") (fun published_at =>
  tryStep (a.index "tag_list") (fun tags =>
  Except.ok (Json.obj [("title", title), ("description", description),
                       ("url", url), ("published_at", published_at),
                       ("tags", tags)]))))))

/-- The `for article in data[:10]` loop, appending mapped articles in
order; the first raised exception aborts the loop. -/
def mapArticles : List Json → Except String (List Json)
  | [] => Except.ok []
  | a :: rest =>
      tryStep (mapArticle a) (fun x =>
      tryStep (mapArticles rest) (fun xs =>
      Except.ok (x :: xs)))

/-- Python `data[:10]`: the first ten elements of a list; slicing any
non-sequence raises `TypeError`. -/
def slice10 : Json → Except String (List Json)
  | Json.arr elems => Except.ok (elems.take 10)
  | _ => Except.error "object is not subscriptable by slice"

/-- `get_news` handler. -/
def get_news (upstream : Upstream) : Outcome :=
  Outcome.resp (catch500 (
    match upstream with
    | Upstream.raises msg => Except.error msg
    | Upstream.ok status data =>
        if status = 200 then
          tryStep (slice10 data) (fun items =>
          tryStep (mapArticles items) (fun articles =>
          Except.ok (jsonify (Json.obj [("articles", Json.arr articles)]) 200)))
        else Except.ok (jsonify (errBody "Unable to fetch news") 500)))

/-- An inbound request to one of the app's routes, bundled with the
upstream result its single outbound call would produce. -/
inductive Request where
  | health
  | healthRoot
  | weather (args : Args) (upstream : Upstream)
  | currency (args : Args) (upstream : Upstream)
  | github (username : String) (upstream : Upstream)
  | ipLookup (args : Args) (upstream : Upstream)
  | news (upstream : Upstream)

/-- Route dispatch: the app's only per-request state is the environment
(`key`, the weather API key); no module-level mutable state exists. -/
def dispatch (key : Option String) : Request → Outcome
  | Request.health => Outcome.resp health
  | Request.healthRoot => Outcome.resp health_root
  | Request.weather args upstream => get_weather args key upstream
  | Request.currency args upstream => convert_currency args upstream
  | Request.github username upstream => get_github_stats username upstream
  | Request.ipLookup args upstream => ip_lookup args upstream
  | Request.news upstream => get_news upstream

/-- Serving a sequence of requests: each is dispatched independently;
there is no state threaded from one request to the next. -/
def serve (key : Option String) (reqs : List Request) : List Outcome :=
  reqs.map (dispatch key)

/-- Claim C6: both health routes answer 200 with a body whose `status`
field is `healthy` and JSON content type; `health` and `health_root`
take no inputs at all in the embedding, so the responses are
unconditional (no environment or upstream dependency). -/
theorem health_always_healthy :
    health.status = 200 ∧ health_root.status = 200 ∧
    health.mimetype = "application/json" ∧
    health_root.mimetype = "application/json" ∧
    health.body.index "status" = Except.ok (Json.str "healthy") ∧
    health_root.body.index "status" = Except.ok (Json.str "healthy") :=
  ⟨rfl, rfl, rfl, rfl, rfl, rfl⟩

/-- Claim C3: with `OPENWEATHER_API_KEY` unset or empty, the weather
handler yields 500 with body error `API key not configured`, uniformly in
the upstream oracle (so no outbound call can influence the response) and
in the query arguments (so regardless of `city`). -/
theorem weather_no_key_500 (args : Args) (key : Option String) (u : Upstream)
    (hk : key = none ∨ key = some "") :
    get_weather args key u
      = Outcome.resp (jsonify (errBody "API key not configured") 500) := by
  rcases hk with h | h <;> subst h <;> rfl

theorem weather_no_key_500_witness :
    ((none : Option String) = none ∨ (none : Option String) = some "") ∧
    get_weather [("city", "Paris")] none (Upstream.ok 200 Json.null)
      = Outcome.resp (jsonify (errBody "API key not configured") 500) :=
  ⟨Or.inl rfl,
   weather_no_key_500 [("city", "Paris")] none (Upstream.ok 200 Json.null) (Or.inl rfl)⟩

/-- Claim C4: on any upstream status other than 200 the weather handler
answers the fixed 404 `City not found` and the GitHub handler the fixed
404 `User not found`; the right-hand sides are closed terms, so nothing
from the upstream response leaks into them. -/
theorem non200_upstream_fixed_404 (wargs : Args) (key : String) (user : String)
    (s : Nat) (b : Json) (hkey : key ≠ "") (hs : s ≠ 200) :
    get_weather wargs (some key) (Upstream.ok s b)
      = Outcome.resp (jsonify (errBody "City not found") 404) ∧
    get_github_stats user (Upstream.ok s b)
      = Outcome.resp (jsonify (errBody "User not found") 404) := by
  constructor
  · simp [get_weather, catch500, hkey, hs]
  · simp [get_github_stats, catch500, hs]

theorem non200_upstream_fixed_404_witness :
    ("k" : String) ≠ "" ∧ (404 : Nat) ≠ 200 ∧
    (get_weather [] (some "k") (Upstream.ok 404 Json.null)
      = Outcome.resp (jsonify (errBody "City not found") 404) ∧
    get_github_stats "nobody" (Upstream.ok 404 Json.null)
      = Outcome.resp (jsonify (errBody "User not found") 404)) :=
  ⟨by decide, by decide,
   non200_upstream_fixed_404 [] "k" "nobody" 404 Json.null (by decide) (by decide)⟩

/-- Claim C2, counterexample: `amount = float(request.args.get('amount', 1))`
runs before the `try:` block of `convert_currency`, so on `amount=abc`
the `ValueError` escapes the handler instead of becoming a 500 with the
message in an `error` field — refuting the claim that no exception
escapes any handler unhandled. -/
theorem currency_amount_parse_escapes :
    convert_currency [("amount", "abc")] (Upstream.ok 200 Json.null)
      = Outcome.escaped "could not convert string to float: \x27abc\x27" := by
  rfl

/-- Claim C8: serving a sequence of requests is `map` of the per-request
dispatcher, so the outcome at each position is a function of that
request alone (given the fixed environment `key`): surrounding requests
neither influence it nor are influenced by it, and equal requests give
equal outcomes wherever they occur. -/
theorem serve_pointwise (key : Option String) (pre post : List Request) (r : Request) :
    serve key (pre ++ r :: post)
      = serve key pre ++ dispatch key r :: serve key post := by
  simp [serve]

/-- Claim C9, counterexample: a 200 upstream response whose body is a
JSON list (not an object) makes every `data.get(...)` raise
`AttributeError`, so the handler answers 500 — not the claimed 200
object — refuting the claim for arbitrary 200 responses. -/
theorem ip_lookup_list_body_500 :
    ip_lookup [] (Upstream.ok 200 (Json.arr []))
      = Outcome.resp (jsonify (errBody "object has no attribute get") 500) := by
  rfl

/-- Claim C9, amended: for every 200 upstream response whose body is a
JSON object, the ip-lookup handler answers 200 with exactly the six
fields `ip`, `city`, `region`, `country`, `timezone`, `org`, each `null`
when its upstream key (`country_name` for `country`) is absent; with an
object body no missing key can cause an error response. -/
theorem ip_lookup_object_success (args : Args) (bf : List (String × Json)) :
    ip_lookup args (Upstream.ok 200 (Json.obj bf))
      = Outcome.resp (jsonify (Json.obj
          [("ip", (lookupKey bf "ip").getD Json.null),
           ("city", (lookupKey bf "city").getD Json.null),
           ("region", (lookupKey bf "region").getD Json.null),
           ("country", (lookupKey bf "country_name").getD Json.null),
           ("timezone", (lookupKey bf "timezone").getD Json.null),
           ("org", (lookupKey bf "org").getD Json.null)]) 200) := by
  simp [ip_lookup, ipBody, Json.dictGet, tryStep, catch500]

/-- Claim C1: on a 200 upstream whose `rates` map holds a nonzero number
for the target currency, the currency handler answers 200 with
`converted = round(amount * rate, 2)`, `amount` the parsed query value
(default string `1`), `rate` echoed, and `from`/`to` echoing the query
parameters with defaults `USD`/`EUR`. -/
theorem currency_success (args : Args) (amount : ℚ)
    (bf rf : List (String × Json)) (r : ℚ)
    (hamt : pyFloat (argsGetD args "amount" "1") = Except.ok amount)
    (hrates : lookupKey bf "rates" = some (Json.obj rf))
    (hrate : lookupKey rf (argsGetD args "to" "EUR") = some (Json.num r))
    (hnz : r ≠ 0) :
    convert_currency args (Upstream.ok 200 (Json.obj bf))
      = Outcome.resp (jsonify (Json.obj
          [("from", Json.str (argsGetD args "from" "USD")),
           ("to", Json.str (argsGetD args "to" "EUR")),
           ("amount", Json.num amount),
           ("converted", Json.num (pyRound2 (amount * r))),
           ("rate", Json.num r)]) 200) := by
  simp [convert_currency, hamt, currencyTry, Json.index, hrates, Json.dictGet,
        hrate, tryStep, Json.truthy, hnz, pyMulFloat, catch500]

theorem currency_success_witness :
    pyFloat (argsGetD [("from", "USD"), ("to", "EUR"), ("amount", "10")] "amount" "1")
        = Except.ok 10 ∧
    lookupKey [("rates", Json.obj [("EUR", Json.num 2)])] "rates"
        = some (Json.obj [("EUR", Json.num 2)]) ∧
    lookupKey [("EUR", Json.num 2)]
        (argsGetD [("from", "USD"), ("to", "EUR"), ("amount", "10")] "to" "EUR")
        = some (Json.num 2) ∧
    (2 : ℚ) ≠ 0 ∧
    convert_currency [("from", "USD"), ("to", "EUR"), ("amount", "10")]
        (Upstream.ok 200 (Json.obj [("rates", Json.obj [("EUR", Json.num 2)])]))
      = Outcome.resp (jsonify (Json.obj
          [("from", Json.str "USD"), ("to", Json.str "EUR"),
           ("amount", Json.num 10),
           ("converted", Json.num (pyRound2 (10 * 2))),
           ("rate", Json.num 2)]) 200) :=
  ⟨by simp [argsGetD, lookupKey, pyFloat, pyFloatCore, digitsVal], rfl, rfl, by norm_num,
   currency_success [("from", "USD"), ("to", "EUR"), ("amount", "10")] 10
     [("rates", Json.obj [("EUR", Json.num 2)])] [("EUR", Json.num 2)] 2
     (by simp [argsGetD, lookupKey, pyFloat, pyFloatCore, digitsVal]) rfl rfl (by norm_num)⟩

/-- Claim C10: with a 200 upstream whose body carries a `rates` object,
the currency handler answers the fixed 400 `Invalid currency code`
exactly when the value `data['rates'].get(to_currency)` is falsy — in
particular for a present rate equal to 0, and for an absent key (where
`.get` yields `None`). -/
theorem currency_falsy_rate_400 (args : Args) (amount : ℚ)
    (bf rf : List (String × Json))
    (hamt : pyFloat (argsGetD args "amount" "1") = Except.ok amount)
    (hrates : lookupKey bf "rates" = some (Json.obj rf)) :
    (lookupKey rf (argsGetD args "to" "EUR") = some (Json.num 0) →
      convert_currency args (Upstream.ok 200 (Json.obj bf))
        = Outcome.resp (jsonify (errBody "Invalid currency code") 400)) ∧
    (convert_currency args (Upstream.ok 200 (Json.obj bf))
        = Outcome.resp (jsonify (errBody "Invalid currency code") 400)
      ↔ ((lookupKey rf (argsGetD args "to" "EUR")).getD Json.null).truthy = false) := by
  have hbase : convert_currency args (Upstream.ok 200 (Json.obj bf))
      = Outcome.resp (catch500 (
          if ((lookupKey rf (argsGetD args "to" "EUR")).getD Json.null).truthy then
            tryStep (pyMulFloat amount ((lookupKey rf (argsGetD args "to" "EUR")).getD Json.null))
              (fun converted =>
                Except.ok (jsonify (Json.obj
                  [("from", Json.str (argsGetD args "from" "USD")),
                   ("to", Json.str (argsGetD args "to" "EUR")),
                   ("amount", Json.num amount),
                   ("converted", Json.num (pyRound2 converted)),
                   ("rate", (lookupKey rf (argsGetD args "to" "EUR")).getD Json.null)]) 200))
          else Except.ok (jsonify (errBody "Invalid currency code") 400))) := by
    simp [convert_currency, hamt, currencyTry, Json.index, hrates, Json.dictGet, tryStep]
  constructor
  · intro h0
    rw [hbase, h0]
    simp [Json.truthy, catch500]
  · rw [hbase]
    cases ht : ((lookupKey rf (argsGetD args "to" "EUR")).getD Json.null).truthy with
    | false => simp [catch500]
    | true =>
      simp only [if_pos rfl, iff_false, Bool.true_eq_false]
      cases hm : pyMulFloat amount ((lookupKey rf (argsGetD args "to" "EUR")).getD Json.null) with
      | error e => simp [tryStep, hm, catch500, jsonify, errBody]
      | ok c => simp [tryStep, hm, catch500, jsonify]

theorem currency_falsy_rate_400_witness :
    pyFloat (argsGetD [("to", "EUR")] "amount" "1") = Except.ok 1 ∧
    lookupKey [("rates", Json.obj [("EUR", Json.num 0)])] "rates"
        = some (Json.obj [("EUR", Json.num 0)]) ∧
    ((lookupKey [("EUR", Json.num 0)] (argsGetD [("to", "EUR")] "to" "EUR")
        = some (Json.num 0) →
      convert_currency [("to", "EUR")]
          (Upstream.ok 200 (Json.obj [("rates", Json.obj [("EUR", Json.num 0)])]))
        = Outcome.resp (jsonify (errBody "Invalid currency code") 400)) ∧
    (convert_currency [("to", "EUR")]
          (Upstream.ok 200 (Json.obj [("rates", Json.obj [("EUR", Json.num 0)])]))
        = Outcome.resp (jsonify (errBody "Invalid currency code") 400)
      ↔ ((lookupKey [("EUR", Json.num 0)]
            (argsGetD [("to", "EUR")] "to" "EUR")).getD Json.null).truthy = false)) :=
  ⟨by simp [argsGetD, lookupKey, pyFloat, pyFloatCore, digitsVal], rfl,
   currency_falsy_rate_400 [("to", "EUR")] 1
     [("rates", Json.obj [("EUR", Json.num 0)])] [("EUR", Json.num 0)]
     (by simp [argsGetD, lookupKey, pyFloat, pyFloatCore, digitsVal]) rfl⟩

/-- Claim C2, amended: every exception raised inside a handler's `try:`
block — the outbound call, JSON parsing and field extraction, all of
which flow through the blanket `except` modelled by `catch500` — becomes
a 500 response with the raw message in the `error` field; but the
parsing of the `amount` query parameter in the currency handler happens
before its `try:` block, and an exception there escapes the handler
unhandled. -/
theorem try_block_exceptions_500 (args : Args) (key : String) (username : String)
    (msg : String) (amount : ℚ) (hkey : key ≠ "")
    (hamt : pyFloat (argsGetD args "amount" "1") = Except.ok amount) :
    (∀ e : Except String Resp, ∀ m : String, e = Except.error m →
      catch500 e = jsonify (errBody m) 500) ∧
    get_weather args (some key) (Upstream.raises msg)
      = Outcome.resp (jsonify (errBody msg) 500) ∧
    convert_currency args (Upstream.raises msg)
      = Outcome.resp (jsonify (errBody msg) 500) ∧
    get_github_stats username (Upstream.raises msg)
      = Outcome.resp (jsonify (errBody msg) 500) ∧
    ip_lookup args (Upstream.raises msg)
      = Outcome.resp (jsonify (errBody msg) 500) ∧
    get_news (Upstream.raises msg)
      = Outcome.resp (jsonify (errBody msg) 500) ∧
    (∀ args2 : Args, ∀ u : Upstream, ∀ s : String,
      pyFloat (argsGetD args2 "amount" "1") = Except.error s →
      convert_currency args2 u = Outcome.escaped s) := by
  refine ⟨?_, ?_, ?_, ?_, ?_, ?_, ?_⟩
  · rintro e m rfl; rfl
  · simp [get_weather, hkey, catch500]
  · simp [convert_currency, hamt, currencyTry, catch500]
  · rfl
  · rfl
  · rfl
  · intro args2 u s hs
    simp [convert_currency, hs]

theorem try_block_exceptions_500_witness :
    ("k" : String) ≠ "" ∧
    pyFloat (argsGetD [] "amount" "1") = Except.ok 1 ∧
    ((∀ e : Except String Resp, ∀ m : String, e = Except.error m →
        catch500 e = jsonify (errBody m) 500) ∧
      get_weather [] (some "k") (Upstream.raises "boom")
        = Outcome.resp (jsonify (errBody "boom") 500) ∧
      convert_currency [] (Upstream.raises "boom")
        = Outcome.resp (jsonify (errBody "boom") 500) ∧
      get_github_stats "octocat" (Upstream.raises "boom")
        = Outcome.resp (jsonify (errBody "boom") 500) ∧
      ip_lookup [] (Upstream.raises "boom")
        = Outcome.resp (jsonify (errBody "boom") 500) ∧
      get_news (Upstream.raises "boom")
        = Outcome.resp (jsonify (errBody "boom") 500) ∧
      (∀ args2 : Args, ∀ u : Upstream, ∀ s : String,
        pyFloat (argsGetD args2 "amount" "1") = Except.error s →
        convert_currency args2 u = Outcome.escaped s)) :=
  ⟨by decide, by simp [argsGetD, lookupKey, pyFloat, pyFloatCore, digitsVal],
   try_block_exceptions_500 [] "k" "octocat" "boom" 1 (by decide)
     (by simp [argsGetD, lookupKey, pyFloat, pyFloatCore, digitsVal])⟩

/-- An `ok` result of subscripting an object means the key was present. -/
lemma index_ok_lookup {bf : List (String × Json)} {k : String} {v : Json}
    (h : (Json.obj bf).index k = Except.ok v) : (lookupKey bf k).isSome := by
  simp only [Json.index] at h
  cases hl : lookupKey bf k with
  | none => rw [hl] at h; simp at h
  | some w => rfl

/-- The weather success body can only be built when all four directly
subscripted top-level keys are present. -/
lemma weatherBody_ok_keys {bf : List (String × Json)} {v : Json}
    (h : weatherBody (Json.obj bf) = Except.ok v) :
    (lookupKey bf "name").isSome ∧ (lookupKey bf "main").isSome ∧
    (lookupKey bf "weather").isSome ∧ (lookupKey bf "wind").isSome := by
  unfold weatherBody at h
  cases h1 : (Json.obj bf).index "name" with
  | error e => rw [h1] at h; simp [tryStep] at h
  | ok name =>
  rw [h1] at h; simp only [tryStep] at h
  cases h2 : (Json.obj bf).index "main" with
  | error e => rw [h2] at h; simp [tryStep] at h
  | ok main =>
  rw [h2] at h; simp only [tryStep] at h
  cases h3 : main.index "temp" with
  | error e => rw [h3] at h; simp [tryStep] at h
  | ok temp =>
  rw [h3] at h; simp only [tryStep] at h
  cases h4 : (Json.obj bf).index "weather" with
  | error e => rw [h4] at h; simp [tryStep] at h
  | ok weather =>
  rw [h4] at h; simp only [tryStep] at h
  cases h5 : weather.indexNat 0 with
  | error e => rw [h5] at h; simp [tryStep] at h
  | ok w0 =>
  rw [h5] at h; simp only [tryStep] at h
  cases h6 : w0.index "description" with
  | error e => rw [h6] at h; simp [tryStep] at h
  | ok desc =>
  rw [h6] at h; simp only [tryStep] at h
  cases h7 : main.index "humidity" with
  | error e => rw [h7] at h; simp [tryStep] at h
  | ok humidity =>
  rw [h7] at h; simp only [tryStep] at h
  cases h8 : (Json.obj bf).index "wind" with
  | error e => rw [h8] at h; simp [tryStep] at h
  | ok wind =>
  exact ⟨index_ok_lookup h1, index_ok_lookup h2, index_ok_lookup h4, index_ok_lookup h8⟩

/-- A missing directly subscripted key makes the weather extraction raise. -/
lemma weatherBody_error_of_missing {bf : List (String × Json)}
    (hmiss : lookupKey bf "name" = none ∨ lookupKey bf "main" = none ∨
             lookupKey bf "weather" = none ∨ lookupKey bf "wind" = none) :
    ∃ m, weatherBody (Json.obj bf) = Except.error m := by
  cases hwb : weatherBody (Json.obj bf) with
  | error m => exact ⟨m, rfl⟩
  | ok v =>
    obtain ⟨hn, hm, hw, hd⟩ := weatherBody_ok_keys hwb
    rcases hmiss with h | h | h | h
    · rw [h] at hn; simp at hn
    · rw [h] at hm; simp at hm
    · rw [h] at hw; simp at hw
    · rw [h] at hd; simp at hd

/-- Claim C7: on a 200 upstream whose object body lacks one of the
directly subscripted keys (`name`, `main`, `weather`, `wind`), the
extraction raises (it is not defended by optional access), so the
request yields a 500 whose `error` field carries the raw exception
message — not the mapped success object and not one of the handler's
typed static errors. -/
theorem weather_missing_field_faults (args : Args) (key : String)
    (bf : List (String × Json)) (hkey : key ≠ "")
    (hmiss : lookupKey bf "name" = none ∨ lookupKey bf "main" = none ∨
             lookupKey bf "weather" = none ∨ lookupKey bf "wind" = none) :
    ∃ msg, get_weather args (some key) (Upstream.ok 200 (Json.obj bf))
        = Outcome.resp (jsonify (errBody msg) 500) := by
  obtain ⟨m, hm⟩ := weatherBody_error_of_missing hmiss
  exact ⟨m, by simp [get_weather, hkey, hm, tryStep, catch500]⟩

theorem weather_missing_field_faults_witness :
    ("k" : String) ≠ "" ∧
    (lookupKey ([] : List (String × Json)) "name" = none ∨
     lookupKey ([] : List (String × Json)) "main" = none ∨
     lookupKey ([] : List (String × Json)) "weather" = none ∨
     lookupKey ([] : List (String × Json)) "wind" = none) ∧
    ∃ msg, get_weather [] (some "k") (Upstream.ok 200 (Json.obj []))
        = Outcome.resp (jsonify (errBody msg) 500) :=
  ⟨by decide, Or.inl rfl,
   weather_missing_field_faults [] "k" [] (by decide) (Or.inl rfl)⟩

/-- An article carries all five keys the news loop subscripts. -/
def hasNewsKeys (a : Json) : Prop :=
  (∃ v, a.index "title" = Except.ok v) ∧
  (∃ v, a.index "description" = Except.ok v) ∧
  (∃ v, a.index "url" = Except.ok v) ∧
  (∃ v, a.index "published_at" = Except.ok v) ∧
  (∃ v, a.index "tag_list" = Except.ok v)

/-- A news output entry: an object with exactly the five mapped fields,
in the order the loop builds them. -/
def isFiveFieldArticle (e : Json) : Prop :=
  ∃ t d u p g, e = Json.obj [("title", t), ("description", d), ("url", u),
                             ("published_at", p), ("tags", g)]

/-- Mapping one article with all keys present succeeds and yields a
five-field object. -/
lemma mapArticle_ok {a : Json} (h : hasNewsKeys a) :
    ∃ e, mapArticle a = Except.ok e ∧ isFiveFieldArticle e := by
  obtain ⟨⟨t, ht⟩, ⟨d, hd⟩, ⟨u, hu⟩, ⟨p, hp⟩, ⟨g, hg⟩⟩ := h
  refine ⟨_, ?_, t, d, u, p, g, rfl⟩
  simp [mapArticle, ht, hd, hu, hp, hg, tryStep]

/-- The news loop over a list of key-complete articles succeeds, keeps
the length, and produces only five-field objects. -/
lemma mapArticles_ok {l : List Json} (h : ∀ a ∈ l, hasNewsKeys a) :
    ∃ out, mapArticles l = Except.ok out ∧ out.length = l.length ∧
      ∀ e ∈ out, isFiveFieldArticle e := by
  induction l with
  | nil => exact ⟨[], rfl, rfl, by simp⟩
  | cons a rest ih =>
    obtain ⟨e, he, hfive⟩ := mapArticle_ok (h a (by simp))
    obtain ⟨out, hout, hlen, hall⟩ := ih (fun x hx => h x (by simp [hx]))
    refine ⟨e :: out, ?_, by simp [hlen], ?_⟩
    · simp [mapArticles, he, hout, tryStep]
    · intro x hx
      rcases List.mem_cons.1 hx with hx | hx
      · exact hx ▸ hfive
      · exact hall x hx

/-- Claim C5: on a 200 upstream whose body is a list of articles all
carrying the five source keys, the news handler answers 200 with an
`articles` list of at most 10 entries, each an object with exactly the
five fields `title`, `description`, `url`, `published_at`, `tags`. -/
theorem news_success (xs : List Json) (h : ∀ a ∈ xs, hasNewsKeys a) :
    ∃ out, get_news (Upstream.ok 200 (Json.arr xs))
        = Outcome.resp (jsonify (Json.obj [("articles", Json.arr out)]) 200) ∧
      out.length ≤ 10 ∧ ∀ e ∈ out, isFiveFieldArticle e := by
  obtain ⟨out, hout, hlen, hall⟩ :=
    mapArticles_ok (l := xs.take 10) (fun a ha => h a (List.take_subset 10 xs ha))
  refine ⟨out, ?_, ?_, hall⟩
  · simp [get_news, slice10, hout, tryStep, catch500]
  · rw [hlen, List.length_take]
    exact min_le_left 10 xs.length

theorem news_success_witness :
    (∀ a ∈ [Json.obj [("title", Json.str "t"), ("description", Json.str "d"),
                      ("url", Json.str "u"), ("published_at", Json.str "p"),
                      ("tag_list", Json.arr [Json.str "webdev"])]], hasNewsKeys a) ∧
    ∃ out, get_news (Upstream.ok 200 (Json.arr
        [Json.obj [("title", Json.str "t"), ("description", Json.str "d"),
                   ("url", Json.str "u"), ("published_at", Json.str "p"),
                   ("tag_list", Json.arr [Json.str "webdev"])]]))
        = Outcome.resp (jsonify (Json.obj [("articles", Json.arr out)]) 200) ∧
      out.length ≤ 10 ∧ ∀ e ∈ out, isFiveFieldArticle e := by
  have hk : ∀ a ∈ [Json.obj [("title", Json.str "t"), ("description", Json.str "d"),
                      ("url", Json.str "u"), ("published_at", Json.str "p"),
                      ("tag_list", Json.arr [Json.str "webdev"])]], hasNewsKeys a := by
    intro a ha
    rw [List.mem_singleton.1 ha]
    exact ⟨⟨Json.str "t", rfl⟩, ⟨Json.str "d", rfl⟩, ⟨Json.str "u", rfl⟩,
           ⟨Json.str "p", rfl⟩, ⟨Json.arr [Json.str "webdev"], rfl⟩⟩
  exact ⟨hk, news_success _ hk⟩
